import Mathlib

/-!
Shallow embedding of the `librdap-storm` core (bulk domain-availability
prober) and verification of its specification claims.

Modelling conventions:
* Rust `String`/`&str` values are Lean `String`s; the character-level
  operations (`split`, `rsplit`, `trim`, `to_lowercase`, `starts_with`,
  `contains`, `lines`, `trim_end_matches`) are re-implemented below over
  `List Char`, matching Rust semantics for the ASCII data these claims
  concern (`to_lowercase` is modelled as per-`Char` lowering, which agrees
  with Rust on ASCII).
* Network effects (HTTP send, JSON decoding by reqwest/serde, TCP WHOIS
  round-trips, timeouts) are library calls outside this repository; each is
  modelled as an explicit outcome value fed to the embedded function, so the
  repository's own control flow on those outcomes is what the definitions
  capture.  In particular reqwest's `Response::json` decodes the body
  without consulting the HTTP status code, so a response outcome carries the
  status and the decode result independently.
* `std::time` durations (the `duration` field of `ProbeResult`) and the
  suspension behaviour of `await` points are wall-clock phenomena outside a
  shallow embedding; `ProbeResult` is modelled without the elapsed-time
  field, and the rate-limiter `acquire` calls made by `probe_one` are
  recorded in an explicit trace so that claims about which acquisitions
  happen remain statable.
-/

/-! ## Character-level string primitives (Rust `str` semantics) -/

/-- `isPre p s` is true when the list `p` is an initial segment of `s`
(Rust `str::starts_with`). -/
def isPre : List Char → List Char → Bool
  | [], _ => true
  | _ :: _, [] => false
  | a :: as, b :: bs => a = b && isPre as bs

/-- `hasSub hay needle` is true when `needle` occurs contiguously inside
`hay` (Rust `str::contains`). -/
def hasSub : List Char → List Char → Bool
  | [], needle => isPre needle []
  | c :: t, needle => isPre needle (c :: t) || hasSub t needle

/-- Split a character list at every occurrence of `sep`; always returns at
least one (possibly empty) segment, like Rust `str::split(sep)`. -/
def splitChar (sep : Char) : List Char → List (List Char)
  | [] => [[]]
  | c :: t =>
    let r := splitChar sep t
    if c = sep then [] :: r
    else
      match r with
      | [] => [[c]]
      | h :: t2 => (c :: h) :: t2

/-- The whitespace predicate used by Rust `str::trim` (restricted to the
ASCII whitespace relevant here). -/
def isWs (c : Char) : Bool :=
  c = ' ' || c = '\t' || c = '\n' || c = '\r'

/-- Rust `str::trim`: drop leading and trailing whitespace. -/
def strTrim (s : String) : String :=
  ⟨((s.data.dropWhile isWs).reverse.dropWhile isWs).reverse⟩

/-- Rust `str::to_lowercase` (ASCII behaviour): lower every character. -/
def strLower (s : String) : String :=
  ⟨s.data.map Char.toLower⟩

/-- Rust `str::starts_with`. -/
def strStarts (s p : String) : Bool :=
  isPre p.data s.data

/-- Rust `str::contains` (substring search). -/
def strContains (hay needle : String) : Bool :=
  hasSub hay.data needle.data

/-- Rust `str::trim_end_matches('/')`: strip every trailing `'/'`. -/
def trimEndSlashes (s : String) : String :=
  ⟨(s.data.reverse.dropWhile (fun c => c = '/')).reverse⟩

/-- Strip one trailing `'\r'`, as Rust `str::lines` does on each line. -/
def stripCr (l : List Char) : List Char :=
  match l.reverse with
  | '\r' :: t => t.reverse
  | _ => l

/-- Rust `str::lines`: split on `'\n'`, drop a final empty segment produced
by a trailing newline, and strip one `'\r'` from the end of each line. -/
def rustLines (s : String) : List String :=
  let parts := splitChar '\n' s.data
  let parts :=
    match parts.reverse with
    | last :: rest => if last.isEmpty then rest.reverse else parts
    | [] => parts
  parts.map (fun l => ⟨stripCr l⟩)

/-! ## Data model (`types.rs`) -/

/-- `Availability` from `types.rs`: the three-way probe verdict. -/
inductive Availability where
  | available
  | taken
  | unknown (reason : String)
  deriving DecidableEq, Repr

namespace Availability

/-- `Availability::is_available`. -/
def is_available : Availability → Bool
  | .available => true
  | _ => false

/-- `Availability::is_taken`. -/
def is_taken : Availability → Bool
  | .taken => true
  | _ => false

/-- `Availability::is_unknown`. -/
def is_unknown : Availability → Bool
  | .unknown _ => true
  | _ => false

end Availability

/-- `ProbeConfig` from `types.rs`.  `timeout` is wall-clock and does not
enter any embedded computation, so it is omitted; the remaining fields are
carried verbatim. -/
structure ProbeConfig where
  whois_fallback : Bool
  max_rate_per_endpoint : Nat
  max_concurrent_per_endpoint : Nat
  deriving DecidableEq, Repr

/-- `ProbeResult` from `types.rs`, without the wall-clock `duration`
field. -/
structure ProbeResult where
  domain : String
  availability : Availability
  deriving DecidableEq, Repr

/-! ## Endpoint registry (`endpoint.rs`) -/

/-- `EndpointError` from `endpoint.rs`; `fetchError` carries the display
text of the underlying `reqwest::Error`. -/
inductive EndpointError where
  | fetchError (e : String)
  | noEndpoint (tld : String)
  | invalidDomain (d : String)
  deriving DecidableEq, Repr

/-- The `thiserror` display strings of `EndpointError`. -/
def endpointErrorMsg : EndpointError → String
  | .fetchError e => "Failed to fetch IANA bootstrap: " ++ e
  | .noEndpoint t => "No RDAP endpoint found for TLD: " ++ t
  | .invalidDomain d => "Invalid domain format: " ++ d

/-- `extract_tld` from `endpoint.rs`:
`domain.rsplit('.').next().filter(|s| !s.is_empty()).map(to_lowercase)
 .ok_or(InvalidDomain)`.  `rsplit('.').next()` is the segment after the
last `'.'` (the whole string when no dot occurs). -/
def extract_tld (domain : String) : Except EndpointError String :=
  match (splitChar '.' domain.data).reverse.head? with
  | some s =>
      if s.isEmpty then .error (.invalidDomain domain)
      else .ok ⟨s.map Char.toLower⟩
  | none => .error (.invalidDomain domain)

example : extract_tld "a.b.c" = .ok "c" := rfl
example : extract_tld "x" = .ok "x" := rfl
example : extract_tld "x." = .error (.invalidDomain "x.") := rfl
example : extract_tld "" = .error (.invalidDomain "") := rfl
example : extract_tld "A.IO" = .ok "io" := rfl

/-! ## Association-map primitives (DashMap insert/get semantics) -/

/-- Insert-or-overwrite into an association list keyed by `String`
(`DashMap::insert`). -/
def insertMap {α : Type} : List (String × α) → String → α → List (String × α)
  | [], k, v => [(k, v)]
  | (k2, v2) :: t, k, v =>
    if k2 = k then (k, v) :: t else (k2, v2) :: insertMap t k v

/-- Lookup in an association list (`DashMap::get`). -/
def lookupMap {α : Type} : List (String × α) → String → Option α
  | [], _ => none
  | (k2, v2) :: t, k => if k2 = k then some v2 else lookupMap t k

/-! ## Endpoint registry state and bootstrap (`endpoint.rs`) -/

/-- The decoded shape of the IANA bootstrap document
(`struct IanaBootstrap { services: Vec<(Vec<String>, Vec<String>)> }`). -/
structure IanaBootstrap where
  services : List (List String × List String)
  deriving DecidableEq, Repr

/-- `EndpointRegistry` state: the TLD→base-URL map and the `bootstrapped`
atomic flag. -/
structure RegistryState where
  endpoints : List (String × String)
  bootstrapped : Bool
  deriving DecidableEq, Repr

/-- `EndpointRegistry::new()`. -/
def RegistryState.new : RegistryState := ⟨[], false⟩

deriving instance DecidableEq for Except

/-- Outcome of `client.get(IANA_BOOTSTRAP_URL).send().await?.json().await?`:
either the send fails in transport (with the `reqwest::Error` display text),
or a response arrives with an HTTP `status` and a body whose decoding as
`IanaBootstrap` either succeeds or fails.  reqwest decodes the body without
consulting the status, so both are carried independently. -/
inductive FetchOutcome where
  | transportError (e : String)
  | response (status : Nat) (decoded : Except String IanaBootstrap)
  deriving DecidableEq, Repr

/-- The populate loop of `EndpointRegistry::bootstrap`: for each service
pair take the first URL, strip trailing `'/'`, and insert every TLD
(lowercased) mapped to that base URL. -/
def populate (endpoints : List (String × String)) (bs : IanaBootstrap) :
    List (String × String) :=
  bs.services.foldl
    (fun m pair =>
      match pair.2.head? with
      | none => m
      | some url =>
        let base := trimEndSlashes url
        pair.1.foldl (fun m2 tld => insertMap m2 (strLower tld) base) m)
    endpoints

/-- `EndpointRegistry::bootstrap`: if the flag is set return `Ok` at once;
otherwise run the fetch+decode (the outcome), propagate any error as
`FetchError` leaving the state untouched, else populate the map and set the
flag.  The HTTP status carried by a response is never examined. -/
def bootstrap (st : RegistryState) (outcome : FetchOutcome) :
    RegistryState × Except EndpointError Unit :=
  if st.bootstrapped then (st, .ok ())
  else
    match outcome with
    | .transportError e => (st, .error (.fetchError e))
    | .response _ decoded =>
      match decoded with
      | .error e => (st, .error (.fetchError e))
      | .ok bs => ({ endpoints := populate st.endpoints bs, bootstrapped := true }, .ok ())

/-- `EndpointRegistry::get_endpoint`: lowercase the TLD and look it up. -/
def get_endpoint (st : RegistryState) (tld : String) : Option String :=
  lookupMap st.endpoints (strLower tld)

/-! ## TLD list helper (`tlds.rs`) -/

/-- `fetch_iana_tlds` from `tlds.rs`, applied to the response body text:
keep lines that do not start with `'#'` and are non-empty, trim and
lowercase each survivor, then drop entries with prefix `"xn--"`. -/
def fetch_iana_tlds (body : String) : List String :=
  (((rustLines body).filter
      (fun line => !(strStarts line "#") && !(line.data.isEmpty))).map
    (fun line => strLower (strTrim line))).filter
    (fun tld => !(strStarts tld "xn--"))

/-- `expand_tlds` from `tlds.rs`: `tlds.iter().map(|tld| "{name}.{tld}")`. -/
def expand_tlds (name : String) (tlds : List String) : List String :=
  tlds.map (fun tld => name ++ "." ++ tld)

/-! ## RDAP client (`rdap.rs`) -/

/-- Outcome of `tokio::time::timeout(timeout, client.get(&url).send())`:
the timer fires, the send fails in transport (with the error's display
text), or a response arrives with an HTTP status code. -/
inductive RdapOutcome where
  | timeout
  | transportError (e : String)
  | response (status : Nat)
  deriving DecidableEq, Repr

/-- The URL built by `check_rdap`: `format!("{}/domain/{}", endpoint, domain)`. -/
def rdapUrl (endpoint domain : String) : String :=
  endpoint ++ "/domain/" ++ domain

/-- `check_rdap` from `rdap.rs`: status 404 → `Available`, 200 → `Taken`,
429 → `Unknown{"Rate limited"}`, any other status →
`Unknown{"HTTP <code>"}`, transport error →
`Unknown{"Request failed: <err>"}`, timeout → `Unknown{"Timeout"}`. -/
def check_rdap (outcome : RdapOutcome) : Availability :=
  match outcome with
  | .response status =>
    if status = 404 then .available
    else if status = 200 then .taken
    else if status = 429 then .unknown "Rate limited"
    else .unknown ("HTTP " ++ Nat.repr status)
  | .transportError e => .unknown ("Request failed: " ++ e)
  | .timeout => .unknown "Timeout"

/-! ## WHOIS client (`whois.rs`) -/

/-- Outcome of the timed TCP round-trip in `check_whois`: the timer fires,
some connect/write/read step fails with an `std::io::Error` (display text
carried), or the full response text is read to EOF. -/
inductive WhoisOutcome where
  | timeout
  | ioError (e : String)
  | response (body : String)
  deriving DecidableEq, Repr

/-- The server-selection match of `check_whois` (lowercased TLD →
hardcoded WHOIS host, `None` for any other TLD). -/
def whoisServer (tld : String) : Option String :=
  match tld with
  | "com" | "net" => some "whois.verisign-grs.com"
  | "org" => some "whois.pir.org"
  | "io" => some "whois.nic.io"
  | "dev" | "app" => some "whois.nic.google"
  | "ai" => some "whois.nic.ai"
  | "co" => some "whois.nic.co"
  | "me" => some "whois.nic.me"
  | _ => none

/-- The response classification of `check_whois`: lowercase the body, then
case-insensitive substring checks in priority order. -/
def classifyWhois (response : String) : Availability :=
  let lower := strLower response
  if strContains lower "no match" || strContains lower "not found" ||
      strContains lower "no data found" || strContains lower "no entries found" then
    .available
  else if strContains lower "domain name:" || strContains lower "registrar:" then
    .taken
  else
    .unknown "Ambiguous WHOIS response"

/-- `check_whois` from `whois.rs`: take the last `'.'`-separated label of
the domain (Rust `rsplit('.').next()`; its `None` arm is unreachable but
kept), lowercase it, select the WHOIS host, and — only when a host exists —
interpret the network outcome: timeout → `Unknown{"WHOIS timeout"}`, I/O
error → `Unknown{"WHOIS error: <err>"}`, full response → classification. -/
def check_whois (domain : String) (outcome : WhoisOutcome) : Availability :=
  match (splitChar '.' domain.data).reverse.head? with
  | none => .unknown "Invalid domain"
  | some t =>
    let tld := strLower ⟨t⟩
    match whoisServer tld with
    | none => .unknown ("No WHOIS server for ." ++ tld)
    | some _ =>
      match outcome with
      | .timeout => .unknown "WHOIS timeout"
      | .ioError e => .unknown ("WHOIS error: " ++ e)
      | .response body => classifyWhois body

/-! ## Per-endpoint rate limiters (`ratelimit.rs`) -/

/-- `NonZeroU32::new`: `None` exactly on zero. -/
def nonZeroU32New (n : Nat) : Option Nat :=
  if n = 0 then none else some n

/-- `EndpointRateLimiters` state: each stored limiter is represented by the
per-second quota it was built with (`Quota::per_second`), plus the shared
`default_rate`. -/
structure LimitersState where
  limiters : List (String × Nat)
  default_rate : Nat
  deriving DecidableEq, Repr

/-- `EndpointRateLimiters::new(default_rate_per_second)`. -/
def LimitersState.new (default_rate_per_second : Nat) : LimitersState :=
  ⟨[], default_rate_per_second⟩

/-- `EndpointRateLimiters::get_or_create`: reuse the stored limiter, or
build one from `Quota::per_second(NonZeroU32::new(default_rate).unwrap())`.
`none` models the `unwrap` panic on a zero rate. -/
def get_or_create (st : LimitersState) (endpoint : String) :
    Option (LimitersState × Nat) :=
  match lookupMap st.limiters endpoint with
  | some r => some (st, r)
  | none =>
    match nonZeroU32New st.default_rate with
    | none => none
    | some r => some ({ st with limiters := insertMap st.limiters endpoint r }, r)

/-- `EndpointRateLimiters::acquire`: `get_or_create` then suspend on
`until_ready` (the suspension itself has no value-level effect); `none`
models the panic propagated from `get_or_create`. -/
def acquire (st : LimitersState) (endpoint : String) : Option LimitersState :=
  (get_or_create st endpoint).map Prod.fst

/-! ## Prober orchestration (`prober.rs`) -/

/-- `Prober` value state: shared registry, shared rate limiters, owned
config (the HTTP client holds no modelled state). -/
structure Prober where
  registry : RegistryState
  rate_limiters : LimitersState
  config : ProbeConfig
  deriving DecidableEq, Repr

/-- `Prober::with_config`: fresh registry, fresh limiters seeded with
`config.max_rate_per_endpoint`. -/
def Prober.with_config (config : ProbeConfig) : Prober :=
  ⟨RegistryState.new, LimitersState.new config.max_rate_per_endpoint, config⟩

/-- The three network outcomes a single `probe_one` run can consume, one
per suspension point it may reach. -/
structure ProbeOracle where
  bootstrapOutcome : FetchOutcome
  rdapOutcome : RdapOutcome
  whoisOutcome : WhoisOutcome
  deriving DecidableEq, Repr

/-- What one `probe_one` run produces: the updated registry state, the
`ProbeResult`, and the trace of endpoints passed to
`rate_limiters.acquire` during the run. -/
structure ProbeStep where
  state : RegistryState
  result : ProbeResult
  acquired : List String
  deriving DecidableEq, Repr

/-- `Prober::probe_one` from `prober.rs`: ensure the registry is
bootstrapped (failure → `Unknown{"Bootstrap failed: <err>"}`), extract the
TLD (failure → `Unknown{<err text>}`), look up the RDAP endpoint (miss →
WHOIS verdict when `whois_fallback`, else
`Unknown{"No RDAP endpoint for .<tld>"}`); on a hit, acquire the limiter
for the endpoint, run RDAP, and when the RDAP verdict is `Unknown` with
`whois_fallback` set override it with the WHOIS verdict. -/
def probe_one (cfg : ProbeConfig) (st : RegistryState) (domain : String)
    (oracle : ProbeOracle) : ProbeStep :=
  match bootstrap st oracle.bootstrapOutcome with
  | (st1, .error e) =>
    ⟨st1, ⟨domain, .unknown ("Bootstrap failed: " ++ endpointErrorMsg e)⟩, []⟩
  | (st1, .ok _) =>
    match extract_tld domain with
    | .error e => ⟨st1, ⟨domain, .unknown (endpointErrorMsg e)⟩, []⟩
    | .ok tld =>
      match get_endpoint st1 tld with
      | none =>
        if cfg.whois_fallback then
          ⟨st1, ⟨domain, check_whois domain oracle.whoisOutcome⟩, []⟩
        else
          ⟨st1, ⟨domain, .unknown ("No RDAP endpoint for ." ++ tld)⟩, []⟩
      | some endpoint =>
        let availability := check_rdap oracle.rdapOutcome
        let availability :=
          if availability.is_unknown && cfg.whois_fallback then
            check_whois domain oracle.whoisOutcome
          else availability
        ⟨st1, ⟨domain, availability⟩, [endpoint]⟩

/-- The `buffer_unordered` window used by `probe_stream`:
`config.max_concurrent_per_endpoint as usize * 10`. -/
def streamWindow (cfg : ProbeConfig) : Nat :=
  cfg.max_concurrent_per_endpoint * 10

/-- `Prober::probe_stream`: materialize the domains, run `probe_one` on
each against the shared registry, and yield every result.  The
`buffer_unordered` combinator only reorders completions; the model yields
results in input order, which is adequate for order-insensitive
properties. -/
def probe_stream (cfg : ProbeConfig) (st : RegistryState)
    (oracle : String → ProbeOracle) (domains : List String) : List ProbeResult :=
  domains.map (fun d => (probe_one cfg st d (oracle d)).result)

/-! ## Helper lemmas -/

/-- String append concatenates the underlying character lists. -/
theorem strData_append (a b : String) : (a ++ b).data = a.data ++ b.data := by
  cases a; cases b; rfl

/-- `splitChar` always returns at least one segment. -/
theorem splitChar_ne_nil (sep : Char) (s : List Char) : splitChar sep s ≠ [] := by
  induction s with
  | nil => simp [splitChar]
  | cons c t ih =>
    simp only [splitChar]
    split
    · simp
    · cases h : splitChar sep t with
      | nil => simp
      | cons h2 t2 => simp

/-- Splitting a list with no occurrence of the separator yields the list
itself as the single segment. -/
theorem splitChar_no_sep (sep : Char) (s : List Char) (h : ∀ c ∈ s, c ≠ sep) :
    splitChar sep s = [s] := by
  induction s with
  | nil => rfl
  | cons c t ih =>
    have hc : c ≠ sep := h c (List.mem_cons_self c t)
    have ht : ∀ c2 ∈ t, c2 ≠ sep := fun c2 hm => h c2 (List.mem_cons_of_mem c hm)
    simp only [splitChar, if_neg hc, ih ht]

/-- `splitChar` distributes over an occurrence of the separator. -/
theorem splitChar_append_sep (sep : Char) (xs ys : List Char) :
    splitChar sep (xs ++ sep :: ys) = splitChar sep xs ++ splitChar sep ys := by
  induction xs with
  | nil => simp [splitChar]
  | cons c t ih =>
    by_cases hc : c = sep
    · subst hc
      simp [splitChar, ih]
    · simp only [List.cons_append, splitChar, if_neg hc]
      cases h : splitChar sep t with
      | nil => exact absurd h (splitChar_ne_nil sep t)
      | cons h2 t2 => simp [ih, h]

/-- The last segment of a split at the final separator occurrence is the
separator-free suffix. -/
theorem splitChar_getLast (sep : Char) (xs ys : List Char)
    (h : ∀ c ∈ ys, c ≠ sep) :
    (splitChar sep (xs ++ sep :: ys)).getLast? = some ys := by
  rw [splitChar_append_sep, splitChar_no_sep sep ys h, List.getLast?_concat]

/-- `Char.toLower` is idempotent. -/
theorem charToLower_idem (c : Char) : c.toLower.toLower = c.toLower := by
  show Char.toLower (Char.toLower c) = Char.toLower c
  unfold Char.toLower
  by_cases h : c.toNat ≥ 65 ∧ c.toNat ≤ 90
  · rw [if_pos h]
    obtain ⟨h1, h2⟩ := h
    revert h1 h2
    generalize c.toNat = n
    intro h1 h2
    interval_cases n <;> decide
  · rw [if_neg h, if_neg h]

/-- `strLower` is idempotent. -/
theorem strLower_idem (s : String) : strLower (strLower s) = strLower s := by
  unfold strLower
  cases s with
  | mk data =>
    simp only [List.map_map]
    congr 1
    induction data with
    | nil => rfl
    | cons c t ih => simp [Function.comp, charToLower_idem, ih]

/-! ## Claim C1: `extract_tld` -/

/-- C1 counterexample: on a dotless domain `extract_tld` returns the whole
(lowercased) input rather than `Err(InvalidDomain)`; `extract_tld("x")`
evaluates to `Ok("x")`, refuting the claimed
`extract_tld("x") = Err(InvalidDomain)`. -/
theorem extract_tld_no_dot_counterexample :
    extract_tld "x" = Except.ok "x" ∧
    decide (extract_tld "x" = Except.error (EndpointError.invalidDomain "x")) = false := by
  exact ⟨rfl, rfl⟩

/-- C1 amended: `extract_tld` returns the lowercased segment after the last
`'.'`, or the whole domain lowercased when no `'.'` occurs; it fails with
`InvalidDomain` exactly when that segment is empty.  In particular
`extract_tld("a.b.c") = Ok("c")`, `extract_tld("x") = Ok("x")` and
`extract_tld("x.") = Err(InvalidDomain)`. -/
theorem extract_tld_amended :
    extract_tld "a.b.c" = Except.ok "c" ∧
    extract_tld "x" = Except.ok "x" ∧
    extract_tld "x." = Except.error (EndpointError.invalidDomain "x.") ∧
    (∀ p s : String, (∀ c ∈ s.data, c ≠ '.') →
        extract_tld (p ++ "." ++ s) =
          if s.data.isEmpty then Except.error (EndpointError.invalidDomain (p ++ "." ++ s))
          else Except.ok (strLower s)) ∧
    (∀ s : String, (∀ c ∈ s.data, c ≠ '.') → s.data ≠ [] →
        extract_tld s = Except.ok (strLower s)) := by
  refine ⟨rfl, rfl, rfl, ?_, ?_⟩
  · intro p s h
    have hdata : (p ++ "." ++ s).data = p.data ++ '.' :: s.data := by
      rw [strData_append, strData_append]
      simp
    unfold extract_tld
    rw [hdata, List.head?_reverse, splitChar_getLast '.' p.data s.data h]
    rfl
  · intro s h hne
    unfold extract_tld
    rw [splitChar_no_sep '.' s.data h]
    simp only [List.reverse_cons, List.reverse_nil, List.nil_append, List.head?_cons]
    rw [if_neg]
    · rfl
    · simpa using hne

/-- C1 witness: the amended theorem applied at `p = "a"`, `s = "io"`. -/
theorem extract_tld_amended_witness :
    extract_tld ("a" ++ "." ++ "io") =
      if ("io" : String).data.isEmpty
      then Except.error (EndpointError.invalidDomain ("a" ++ "." ++ "io"))
      else Except.ok (strLower "io") :=
  extract_tld_amended.2.2.2.1 "a" "io" (by decide)

/-! ## Claim C2: `fetch_iana_tlds` -/

/-- C2 counterexample: the blank/comment filter runs before trimming, so
the body `" #\n "` (a line holding a space then `'#'`, and a line holding a
single space) yields the entries `["#", ""]`: one entry starts with `"#"`
and one entry is empty, refuting the claimed non-emptiness and
`'#'`-freeness of every entry. -/
theorem fetch_iana_tlds_counterexample :
    fetch_iana_tlds " #\n " = ["#", ""] ∧
    strStarts "#" "#" = true ∧
    "".data.isEmpty = true ∧
    "#" ∈ fetch_iana_tlds " #\n " ∧
    "" ∈ fetch_iana_tlds " #\n " := by
  refine ⟨rfl, rfl, rfl, ?_, ?_⟩ <;> decide

/-- C2 amended: every entry returned by `fetch_iana_tlds` is lowercase
(fixed by lowercasing) and does not start with `"xn--"`; entries derived
from lines with leading whitespace may be empty or start with `'#'`,
because the blank/comment filter runs before trimming. -/
theorem fetch_iana_tlds_amended (body t : String) (h : t ∈ fetch_iana_tlds body) :
    strLower t = t ∧ strStarts t "xn--" = false := by
  unfold fetch_iana_tlds at h
  rw [List.mem_filter] at h
  obtain ⟨hmem, hq⟩ := h
  constructor
  · rw [List.mem_map] at hmem
    obtain ⟨line, _, rfl⟩ := hmem
    exact strLower_idem _
  · simpa using hq

/-- C2 witness: the amended theorem applied to the body `"COM\nXN--TEST"`,
whose entry list is `["com"]`. -/
theorem fetch_iana_tlds_amended_witness :
    strLower "com" = "com" ∧ strStarts "com" "xn--" = false :=
  fetch_iana_tlds_amended "COM\nXN--TEST" "com" (by decide)

/-! ## Claim C3: bootstrap failure modes -/

/-- C3 counterexample: `bootstrap` never consults the HTTP status.  A
response with status 500 whose body decodes as a bootstrap document
succeeds: it populates the map (lowercasing the TLD and stripping the
trailing slash of the first URL) and sets the flag, instead of returning
`Err(FetchError)`. -/
theorem bootstrap_non2xx_counterexample :
    bootstrap RegistryState.new
        (.response 500 (.ok ⟨[(["COM"], ["https://rdap.example/"])]⟩)) =
      (⟨[("com", "https://rdap.example")], true⟩, Except.ok ()) ∧
    decide ((bootstrap RegistryState.new
        (.response 500 (.ok ⟨[(["COM"], ["https://rdap.example/"])]⟩))).2 =
          Except.error (EndpointError.fetchError "HTTP 500")) = false := by
  exact ⟨rfl, rfl⟩

/-- C3 amended: `bootstrap` returns `Err(FetchError)` — leaving the flag
unset and the endpoint map unchanged — exactly on transport errors and on
bodies that fail to decode as the bootstrap document; the HTTP status is
never examined, so every response whose body decodes as a bootstrap
document (non-2xx included) succeeds, populates the map, and sets the
flag. -/
theorem bootstrap_fetch_error_amended (st : RegistryState) (e : String)
    (h : st.bootstrapped = false) :
    bootstrap st (.transportError e) = (st, Except.error (EndpointError.fetchError e)) ∧
    (∀ status : Nat,
        bootstrap st (.response status (.error e)) =
          (st, Except.error (EndpointError.fetchError e))) ∧
    (∀ (status : Nat) (bs : IanaBootstrap),
        bootstrap st (.response status (.ok bs)) =
          ({ endpoints := populate st.endpoints bs, bootstrapped := true },
           Except.ok ())) ∧
    (∀ (status status2 : Nat) (decoded : Except String IanaBootstrap),
        bootstrap st (.response status decoded) =
          bootstrap st (.response status2 decoded)) := by
  refine ⟨?_, ?_, ?_, ?_⟩ <;> simp [bootstrap, h]

/-- C3 witness: the amended theorem applied to a fresh registry and the
transport error `"connection refused"`. -/
theorem bootstrap_fetch_error_amended_witness :
    bootstrap RegistryState.new (.transportError "connection refused") =
      (RegistryState.new, Except.error (EndpointError.fetchError "connection refused")) :=
  (bootstrap_fetch_error_amended RegistryState.new "connection refused" rfl).1

/-! ## Claim C7: bootstrap is at-most-once -/

/-- C7: once a `bootstrap` call has succeeded, every later call returns
success at once, independently of any further fetch outcome (hence without
an observable network effect), and leaves the registry — in particular the
endpoint map — exactly as the first successful call left it; a failed call
leaves the state unchanged with the flag still unset, so a later call
retries the fetch. -/
theorem bootstrap_at_most_once (st : RegistryState) (o o2 : FetchOutcome) :
    ((bootstrap st o).2 = Except.ok () →
        bootstrap (bootstrap st o).1 o2 = ((bootstrap st o).1, Except.ok ())) ∧
    ((bootstrap st o).2 = Except.ok () → (bootstrap st o).1.bootstrapped = true) ∧
    (∀ e : EndpointError, (bootstrap st o).2 = Except.error e →
        (bootstrap st o).1 = st ∧ (bootstrap st o).1.bootstrapped = false) := by
  by_cases hb : st.bootstrapped
  · refine ⟨?_, ?_, ?_⟩ <;> simp [bootstrap, hb]
  · simp only [Bool.not_eq_true] at hb
    cases o with
    | transportError e => refine ⟨?_, ?_, ?_⟩ <;> simp [bootstrap, hb]
    | response status decoded =>
      cases decoded with
      | error e => refine ⟨?_, ?_, ?_⟩ <;> simp [bootstrap, hb]
      | ok bs => refine ⟨?_, ?_, ?_⟩ <;> simp [bootstrap, hb]

/-- C7 witness: after a successful bootstrap of a fresh registry, a second
call with a failing outcome still returns success and changes nothing. -/
theorem bootstrap_at_most_once_witness :
    bootstrap (bootstrap RegistryState.new (.response 200 (.ok ⟨[]⟩))).1
        (.transportError "network down") =
      ((bootstrap RegistryState.new (.response 200 (.ok ⟨[]⟩))).1, Except.ok ()) :=
  (bootstrap_at_most_once RegistryState.new (.response 200 (.ok ⟨[]⟩))
    (.transportError "network down")).1 rfl

/-! ## Claim C4: RDAP status mapping -/

/-- C4: `check_rdap` requests `{endpoint}/domain/{domain}` and maps the
outcome: `Available` iff status 404, `Taken` iff status 200, 429 →
`Unknown{"Rate limited"}`, any other status → `Unknown{"HTTP <code>"}`,
transport error → `Unknown{"Request failed: <err>"}`, timeout →
`Unknown{"Timeout"}`. -/
theorem check_rdap_status_mapping :
    (∀ endpoint domain : String, rdapUrl endpoint domain = endpoint ++ "/domain/" ++ domain) ∧
    (∀ o : RdapOutcome, check_rdap o = Availability.available ↔ o = RdapOutcome.response 404) ∧
    (∀ o : RdapOutcome, check_rdap o = Availability.taken ↔ o = RdapOutcome.response 200) ∧
    check_rdap (RdapOutcome.response 429) = Availability.unknown "Rate limited" ∧
    (∀ s : Nat, s ≠ 404 → s ≠ 200 → s ≠ 429 →
        check_rdap (RdapOutcome.response s) = Availability.unknown ("HTTP " ++ Nat.repr s)) ∧
    (∀ e : String,
        check_rdap (RdapOutcome.transportError e) =
          Availability.unknown ("Request failed: " ++ e)) ∧
    check_rdap RdapOutcome.timeout = Availability.unknown "Timeout" := by
  refine ⟨fun _ _ => rfl, ?_, ?_, rfl, ?_, fun _ => rfl, rfl⟩
  · intro o
    cases o with
    | timeout => simp [check_rdap]
    | transportError e => simp [check_rdap]
    | response s =>
      by_cases h404 : s = 404
      · subst h404; simp [check_rdap]
      · by_cases h200 : s = 200
        · subst h200; simp [check_rdap]
        · by_cases h429 : s = 429
          · subst h429; simp [check_rdap]
          · simp [check_rdap, h404, h200, h429]
  · intro o
    cases o with
    | timeout => simp [check_rdap]
    | transportError e => simp [check_rdap]
    | response s =>
      by_cases h404 : s = 404
      · subst h404; simp [check_rdap]
      · by_cases h200 : s = 200
        · subst h200; simp [check_rdap]
        · by_cases h429 : s = 429
          · subst h429; simp [check_rdap]
          · simp [check_rdap, h404, h200, h429]
  · intro s h404 h200 h429
    simp [check_rdap, h404, h200, h429]

/-- C4 witness: the "any other status" clause of the mapping applied at
status 500. -/
theorem check_rdap_status_mapping_witness :
    check_rdap (RdapOutcome.response 500) = Availability.unknown ("HTTP " ++ Nat.repr 500) :=
  check_rdap_status_mapping.2.2.2.2.1 500 (by decide) (by decide) (by decide)

/-! ## Claim C6: WHOIS response classification -/

/-- C6: for any domain whose last label maps to a WHOIS host,
`check_whois` classifies a full response by case-insensitive substring
search in priority order: any of `"no match"`, `"not found"`,
`"no data found"`, `"no entries found"` → `Available`; else
`"domain name:"` or `"registrar:"` → `Taken`; else
`Unknown{"Ambiguous WHOIS response"}`. -/
theorem check_whois_classification (domain tld host body : String)
    (hdom : (splitChar '.' domain.data).reverse.head? = some tld.data)
    (hhost : whoisServer (strLower tld) = some host) :
    check_whois domain (WhoisOutcome.response body) = classifyWhois body ∧
    ((strContains (strLower body) "no match" = true ∨
      strContains (strLower body) "not found" = true ∨
      strContains (strLower body) "no data found" = true ∨
      strContains (strLower body) "no entries found" = true) →
        classifyWhois body = Availability.available) ∧
    (strContains (strLower body) "no match" = false →
     strContains (strLower body) "not found" = false →
     strContains (strLower body) "no data found" = false →
     strContains (strLower body) "no entries found" = false →
     (strContains (strLower body) "domain name:" = true ∨
      strContains (strLower body) "registrar:" = true) →
        classifyWhois body = Availability.taken) ∧
    (strContains (strLower body) "no match" = false →
     strContains (strLower body) "not found" = false →
     strContains (strLower body) "no data found" = false →
     strContains (strLower body) "no entries found" = false →
     strContains (strLower body) "domain name:" = false →
     strContains (strLower body) "registrar:" = false →
        classifyWhois body = Availability.unknown "Ambiguous WHOIS response") := by
  refine ⟨?_, ?_, ?_, ?_⟩
  · unfold check_whois
    rw [hdom]
    show (match whoisServer (strLower tld) with
          | none => Availability.unknown ("No WHOIS server for ." ++ strLower tld)
          | some _ => classifyWhois body) = classifyWhois body
    rw [hhost]
  · intro h
    unfold classifyWhois
    rcases h with h | h | h | h <;> simp [h]
  · intro h1 h2 h3 h4 h
    unfold classifyWhois
    rcases h with h | h <;> simp [h1, h2, h3, h4, h]
  · intro h1 h2 h3 h4 h5 h6
    unfold classifyWhois
    simp [h1, h2, h3, h4, h5, h6]

/-- C6 witness: classification of `"No match for X.COM"` for the domain
`x.com` (served by Verisign) is `Available`. -/
theorem check_whois_classification_witness :
    check_whois "x.com" (WhoisOutcome.response "No match for X.COM") =
      classifyWhois "No match for X.COM" ∧
    classifyWhois "No match for X.COM" = Availability.available := by
  have h := check_whois_classification "x.com" "com" "whois.verisign-grs.com"
    "No match for X.COM" (by decide) (by decide)
  exact ⟨h.1, h.2.1 (Or.inl (by decide))⟩

/-! ## Claim C8: WHOIS server selection -/

/-- C8: `check_whois` selects the WHOIS host by a lowercase match on the
domain's last label exactly per the hardcoded table, and for every TLD
outside the table it returns `Unknown{"No WHOIS server for .<tld>"}`
independently of any network outcome (no query is performed). -/
theorem whois_server_table :
    whoisServer "com" = some "whois.verisign-grs.com" ∧
    whoisServer "net" = some "whois.verisign-grs.com" ∧
    whoisServer "org" = some "whois.pir.org" ∧
    whoisServer "io" = some "whois.nic.io" ∧
    whoisServer "dev" = some "whois.nic.google" ∧
    whoisServer "app" = some "whois.nic.google" ∧
    whoisServer "ai" = some "whois.nic.ai" ∧
    whoisServer "co" = some "whois.nic.co" ∧
    whoisServer "me" = some "whois.nic.me" ∧
    (∀ tld : String, tld ≠ "com" → tld ≠ "net" → tld ≠ "org" → tld ≠ "io" →
        tld ≠ "dev" → tld ≠ "app" → tld ≠ "ai" → tld ≠ "co" → tld ≠ "me" →
        whoisServer tld = none) ∧
    (∀ (domain tld : String) (o o2 : WhoisOutcome),
        (splitChar '.' domain.data).reverse.head? = some tld.data →
        whoisServer (strLower tld) = none →
        check_whois domain o =
            Availability.unknown ("No WHOIS server for ." ++ strLower tld) ∧
          check_whois domain o = check_whois domain o2) := by
  refine ⟨rfl, rfl, rfl, rfl, rfl, rfl, rfl, rfl, rfl, ?_, ?_⟩
  · intro tld h1 h2 h3 h4 h5 h6 h7 h8 h9
    unfold whoisServer
    split <;> simp_all
  · intro domain tld o o2 hdom hnone
    have key : ∀ o3 : WhoisOutcome,
        check_whois domain o3 =
          Availability.unknown ("No WHOIS server for ." ++ strLower tld) := by
      intro o3
      unfold check_whois
      rw [hdom]
      show (match whoisServer (strLower tld) with
            | none => Availability.unknown ("No WHOIS server for ." ++ strLower tld)
            | some _ =>
              match o3 with
              | .timeout => Availability.unknown "WHOIS timeout"
              | .ioError e => Availability.unknown ("WHOIS error: " ++ e)
              | .response body => classifyWhois body) = _
      rw [hnone]
    exact ⟨key o, (key o).trans (key o2).symm⟩

/-- C8 witness: `acme.zzzzz` with any outcome yields
`Unknown{"No WHOIS server for .zzzzz"}`. -/
theorem whois_server_table_witness :
    check_whois "acme.zzzzz" WhoisOutcome.timeout =
      Availability.unknown ("No WHOIS server for ." ++ strLower "zzzzz") :=
  (whois_server_table.2.2.2.2.2.2.2.2.2.2 "acme.zzzzz" "zzzzz"
    WhoisOutcome.timeout (WhoisOutcome.response "hi") (by decide) (by decide)).1

/-! ## Claim C5: probe_one fallback orchestration -/

/-- C5: after a successful bootstrap and TLD extraction, `probe_one`
behaves as follows on the endpoint lookup.  On a miss with
`whois_fallback` it returns the WHOIS verdict having acquired no rate
limiter; on a miss without fallback it returns
`Unknown{"No RDAP endpoint for .<tld>"}`, again with no acquisition.  On a
hit it acquires the limiter for exactly that endpoint and keeps the RDAP
verdict, except that an `Unknown` RDAP verdict with `whois_fallback` set is
overridden by the WHOIS verdict. -/
theorem probe_one_endpoint_cases (cfg : ProbeConfig) (st : RegistryState)
    (domain tld : String) (oracle : ProbeOracle)
    (hb : (bootstrap st oracle.bootstrapOutcome).2 = Except.ok ())
    (ht : extract_tld domain = Except.ok tld) :
    (get_endpoint (bootstrap st oracle.bootstrapOutcome).1 tld = none →
        cfg.whois_fallback = true →
        probe_one cfg st domain oracle =
          ⟨(bootstrap st oracle.bootstrapOutcome).1,
           ⟨domain, check_whois domain oracle.whoisOutcome⟩, []⟩) ∧
    (get_endpoint (bootstrap st oracle.bootstrapOutcome).1 tld = none →
        cfg.whois_fallback = false →
        probe_one cfg st domain oracle =
          ⟨(bootstrap st oracle.bootstrapOutcome).1,
           ⟨domain, Availability.unknown ("No RDAP endpoint for ." ++ tld)⟩, []⟩) ∧
    (∀ endpoint : String,
        get_endpoint (bootstrap st oracle.bootstrapOutcome).1 tld = some endpoint →
        (probe_one cfg st domain oracle).acquired = [endpoint] ∧
        ((check_rdap oracle.rdapOutcome).is_unknown = true → cfg.whois_fallback = true →
            (probe_one cfg st domain oracle).result.availability =
              check_whois domain oracle.whoisOutcome) ∧
        ((check_rdap oracle.rdapOutcome).is_unknown = false ∨ cfg.whois_fallback = false →
            (probe_one cfg st domain oracle).result.availability =
              check_rdap oracle.rdapOutcome)) := by
  generalize hbs : bootstrap st oracle.bootstrapOutcome = p at hb ⊢
  obtain ⟨st1, res⟩ := p
  have hres : res = Except.ok () := hb
  subst hres
  refine ⟨?_, ?_, ?_⟩
  · intro hmiss hfb
    simp only [] at hmiss
    simp [probe_one, hbs, ht, hmiss, hfb]
  · intro hmiss hfb
    simp only [] at hmiss
    simp [probe_one, hbs, ht, hmiss, hfb]
  · intro endpoint hhit
    simp only [] at hhit
    have hred : probe_one cfg st domain oracle =
        ⟨st1,
         ⟨domain,
          if (check_rdap oracle.rdapOutcome).is_unknown && cfg.whois_fallback then
            check_whois domain oracle.whoisOutcome
          else check_rdap oracle.rdapOutcome⟩,
         [endpoint]⟩ := by
      simp [probe_one, hbs, ht, hhit]
    refine ⟨by rw [hred], ?_, ?_⟩
    · intro hu hfb
      rw [hred]
      simp [hu, hfb]
    · intro h
      rw [hred]
      rcases h with h | h <;> simp [h]

/-- C5 witness: a fresh registry bootstrapped from an empty document misses
on `.zzz`, and with fallback enabled `probe_one` returns the WHOIS verdict
with no rate-limiter acquisition. -/
theorem probe_one_endpoint_cases_witness :
    probe_one ⟨true, 20, 10⟩ RegistryState.new "x.zzz"
        ⟨FetchOutcome.response 200 (Except.ok ⟨[]⟩), RdapOutcome.timeout,
         WhoisOutcome.timeout⟩ =
      ⟨(bootstrap RegistryState.new (FetchOutcome.response 200 (Except.ok ⟨[]⟩))).1,
       ⟨"x.zzz", check_whois "x.zzz" WhoisOutcome.timeout⟩, []⟩ :=
  (probe_one_endpoint_cases ⟨true, 20, 10⟩ RegistryState.new "x.zzz" "zzz"
    ⟨FetchOutcome.response 200 (Except.ok ⟨[]⟩), RdapOutcome.timeout,
     WhoisOutcome.timeout⟩ rfl rfl).1 rfl rfl

/-! ## Claim C9: probe_stream yields one result per domain -/

/-- C9: over any finite input list of N domains `probe_stream` yields
exactly N `ProbeResult`s (it is total, so it never fails), and the
`buffer_unordered` concurrency window is
`max_concurrent_per_endpoint × 10`. -/
theorem probe_stream_yields_all (cfg : ProbeConfig) (st : RegistryState)
    (oracle : String → ProbeOracle) (domains : List String) :
    (probe_stream cfg st oracle domains).length = domains.length ∧
    streamWindow cfg = cfg.max_concurrent_per_endpoint * 10 :=
  ⟨by simp [probe_stream], rfl⟩

/-! ## Claim C10: rate-limiter creation and the NonZeroU32 unwrap -/

/-- C10: `get_or_create` unwraps `NonZeroU32::new(default_rate)`, so with
`default_rate ≥ 1` it never panics (modelled: always returns `some`),
while a `Prober` configured with `max_rate_per_endpoint = 0` panics on the
first `acquire` for any endpoint (modelled: `none`). -/
theorem rate_limiter_nonzero_unwrap :
    (∀ (st : LimitersState) (endpoint : String), 1 ≤ st.default_rate →
        (get_or_create st endpoint).isSome = true) ∧
    (∀ (cfg : ProbeConfig) (endpoint : String), cfg.max_rate_per_endpoint = 0 →
        get_or_create (Prober.with_config cfg).rate_limiters endpoint = none ∧
        acquire (Prober.with_config cfg).rate_limiters endpoint = none) := by
  constructor
  · intro st endpoint h
    unfold get_or_create
    cases hl : lookupMap st.limiters endpoint with
    | some r => rfl
    | none =>
      have hne : st.default_rate ≠ 0 := by omega
      simp [nonZeroU32New, hne]
  · intro cfg endpoint h
    have hgoc : get_or_create (Prober.with_config cfg).rate_limiters endpoint = none := by
      show get_or_create (LimitersState.new cfg.max_rate_per_endpoint) endpoint = none
      unfold get_or_create LimitersState.new
      simp [lookupMap, nonZeroU32New, h]
    exact ⟨hgoc, by unfold acquire; rw [hgoc]; rfl⟩

/-- C10 witness: with the default rate 20 the limiter for a fresh endpoint
is created without panicking, and with rate 0 the first acquire panics. -/
theorem rate_limiter_nonzero_unwrap_witness :
    (get_or_create (LimitersState.new 20) "https://rdap.example").isSome = true ∧
    acquire (Prober.with_config ⟨true, 0, 10⟩).rate_limiters "https://rdap.example" = none :=
  ⟨rate_limiter_nonzero_unwrap.1 (LimitersState.new 20) "https://rdap.example" (by decide),
   (rate_limiter_nonzero_unwrap.2 ⟨true, 0, 10⟩ "https://rdap.example" rfl).2⟩
